import Mathlib

/-!
Verification development for the Flask backend of the DSA tutoring
application (`app/users/routes.py` and the `token_required` middleware).
The handlers are shallowly embedded as pure Lean functions: every call to
the external identity/data provider (Supabase) or to the AI provider is
represented by an oracle value of type `Except String _` (`.error msg`
models the Python call raising an exception with message `msg`), database
tables are explicit lists of rows, and each handler returns the JSON/HTTP
response it would produce, together with the list of externally visible
effects it performed.
-/

namespace Leetcode2

/-- Python truthiness of an optional string: `data.get(k)` is falsy when the
key is absent (`None`) or maps to the empty string. -/
def isFalsy (o : Option String) : Bool :=
  match o with
  | none => true
  | some s => s == ""

/-- Python `admin_code and admin_code == ADMIN_SECRET`: the optional string is
truthy and equal to `s`. -/
def truthyEq (o : Option String) (s : String) : Bool :=
  match o with
  | none => false
  | some c => !(c == "") && c == s

/-- Character class `[a-zA-Z0-9._%+-]` of the local part of the email
regex in `is_valid_email` (`routes.py`, line 11). -/
def isLocalChar (c : Char) : Bool :=
  c.isAlpha || c.isDigit || c == '.' || c == '_' || c == '%' || c == '+' || c == '-'

/-- Character class `[a-zA-Z0-9.-]` of the domain part of the email regex. -/
def isDomainChar (c : Char) : Bool :=
  c.isAlpha || c.isDigit || c == '.' || c == '-'

/-- Matching of the domain portion `[a-zA-Z0-9.-]+\.[a-zA-Z]{2,}$` of the
email regex against a character list. Since the final alphabetic block must
extend to the end of the string and is preceded by a literal dot, a match
exists exactly when the maximal alphabetic suffix has length at least 2, is
preceded by a dot, and a non-empty `[a-zA-Z0-9.-]+` prefix remains before
that dot. -/
def domainMatch (d : List Char) : Bool :=
  let rev := d.reverse
  let r := (rev.takeWhile Char.isAlpha).length
  decide (2 ≤ r) &&
    (match rev.drop r with
     | '.' :: p => !p.isEmpty && p.all isDomainChar
     | _ => false)

/-- Matching of the full pattern
`^[a-zA-Z0-9._%+-]+@[a-zA-Z0-9.-]+\.[a-zA-Z]{2,}$` against a character
list. Both character classes exclude `@`, so the string must contain
exactly one `@`, splitting it into the local part and the domain. -/
def emailCore (cs : List Char) : Bool :=
  cs.count '@' == 1 &&
    (let localPart := cs.takeWhile (fun c => !(c == '@'))
     let domainPart := (cs.dropWhile (fun c => !(c == '@'))).drop 1
     !localPart.isEmpty && localPart.all isLocalChar && domainMatch domainPart)

/-- `is_valid_email` from `routes.py` (lines 10-12): Python
`re.match(pattern, email)` with a `$` anchor, which also matches when the
pattern matches everything before a single trailing newline. -/
def is_valid_email (email : String) : Bool :=
  let cs := email.toList
  emailCore cs || (cs.getLast? == some '\n' && emailCore cs.dropLast)

/-- An account held at the identity provider, as the signup/login handlers
observe it: `email_confirmed_at` is `none` when the provider reports no
confirmation timestamp (Python `None`). -/
structure AuthUser where
  id : String
  email : String
  email_confirmed_at : Option String
deriving Repr, DecidableEq

/-- Result object of `supabase.auth.sign_up`: the handlers only inspect
`response.user` (here the created account's id, `none` for Python `None`). -/
structure SignUpResponse where
  user : Option String
deriving Repr, DecidableEq

/-- A row of the local `users` table, as inserted by `signup`. -/
structure UserRow where
  id : String
  email : String
  username : String
  phone : String
  role : String
deriving Repr, DecidableEq

/-- A row of the `userprogress` table. The question-progress insert sets
only `user_id` and `question_id`; the article-progress insert sets
`user_id`, `article_id` and `completed_at`; absent keys are `none`. -/
structure ProgressRow where
  user_id : String
  article_id : Option String := none
  question_id : Option String := none
  completed_at : Option String := none
deriving Repr, DecidableEq

/-- The JSON/HTTP response of a handler: the status code together with the
body fields the handlers emit (fields absent from a given body are
`none`/`[]`). `resp_status` is the body key `"status"` (e.g. `"resent"`),
`response` the AI answer body key `"response"`. -/
structure HttpResponse where
  status : Nat
  message : Option String := none
  error : Option String := none
  role : Option String := none
  resp_status : Option String := none
  token : Option String := none
  response : Option String := none
  code_example : Option String := none
  rows : List ProgressRow := []
deriving Repr, DecidableEq

/-- Shorthand for an error response `jsonify({"error": msg}), code`. -/
def errResp (code : Nat) (msg : String) : HttpResponse :=
  { status := code, error := some msg }

/-- Externally visible side effects a handler performs, in order. -/
inductive Effect where
  | resendVerification (type email : String)
  | authSignUp (email password username phone role : String)
  | insertUserRow (row : UserRow)
deriving Repr, DecidableEq

/-- The JSON body of a signup request; `data.get(k)` is `none` when absent. -/
structure SignupData where
  email : Option String := none
  password : Option String := none
  username : Option String := none
  phone : Option String := none
  admin_code : Option String := none
deriving Repr, DecidableEq

/-- Oracle for the external calls `signup` makes: each field is the outcome
of the corresponding provider call, `.error msg` modelling a raised
exception. `get_user_by_email` yields `some` user when the provider returns
a (truthy) account object and `none` when it returns Python `None`. -/
structure SignupEnv where
  get_user_by_email : Except String (Option AuthUser)
  resend : Except String Unit := .ok ()
  sign_up : Except String SignUpResponse := .ok { user := none }
  insert_users : Except String Unit := .ok ()

/-- The `signup` handler (`routes.py`, lines 14-96). Validation mirrors the
source order: required-field truthiness, email format, password length,
then the role derivation `if admin_code and admin_code == ADMIN_SECRET`.
The inner `try` around the existing-user check swallows every exception
(including one raised by `resend`) and falls through to `sign_up`; the
outer `try` turns a raised exception `e` into `({"error": str(e)}, 500)`. -/
def signup (data : SignupData) (ADMIN_SECRET : String) (env : SignupEnv) :
    HttpResponse × List Effect :=
  if isFalsy data.email || isFalsy data.password || isFalsy data.username ||
      isFalsy data.phone then
    (errResp 400 "Email, password, username, and phone are required", [])
  else
    let email := data.email.getD ""
    let password := data.password.getD ""
    let username := data.username.getD ""
    let phone := data.phone.getD ""
    if !is_valid_email email then
      (errResp 400 "Invalid email format", [])
    else if password.length < 6 then
      (errResp 400 "Password must be at least 6 characters long", [])
    else
      let role := if truthyEq data.admin_code ADMIN_SECRET then "admin" else "user"
      let earlyReturn : Option (HttpResponse × List Effect) :=
        match env.get_user_by_email with
        | .error _ => none
        | .ok none => none
        | .ok (some existing_user) =>
            if isFalsy existing_user.email_confirmed_at then
              match env.resend with
              | .error _ => none
              | .ok _ =>
                  some ({ status := 200,
                          message := some "User exists but email not verified. Verification email resent.",
                          resp_status := some "resent" },
                        [Effect.resendVerification "signup" email])
            else
              some (errResp 400 "User already registered and verified", [])
      match earlyReturn with
      | some out => out
      | none =>
          match env.sign_up with
          | .error e => (errResp 500 e, [])
          | .ok response =>
              let eff := Effect.authSignUp email password username phone role
              match response.user with
              | none =>
                  (errResp 400 "Signup failed. Check email format or try again.", [eff])
              | some user_id =>
                  let user_data : UserRow :=
                    { id := user_id, email := email, username := username,
                      phone := phone, role := role }
                  match env.insert_users with
                  | .error e => (errResp 500 e, [eff])
                  | .ok _ =>
                      ({ status := 200,
                         message := some "User registered successfully. Check your email to verify your account.",
                         role := some role },
                       [eff, Effect.insertUserRow user_data])

/-- Result object of `supabase.auth.sign_in_with_password`, as `login`
inspects it: an optional truthy `error` attribute (with its message), the
authenticated user, and the session's access token. -/
structure SignInResponse where
  error : Option String := none
  user : Option AuthUser := none
  access_token : String := ""
deriving Repr, DecidableEq

/-- Oracle for the one external call `login` makes. -/
structure LoginEnv where
  sign_in_with_password : Except String SignInResponse

/-- The `login` handler (`routes.py`, lines 99-123): delegates the
credential check to the provider, maps a truthy `response.error` to 400,
a missing or unconfirmed user to 403 with no token, success to 200 with
the session's access token, and a raised exception `e` to
`({"error": str(e)}, 500)`. -/
def login (env : LoginEnv) : HttpResponse :=
  match env.sign_in_with_password with
  | .error e => errResp 500 e
  | .ok response =>
      match response.error with
      | some msg => errResp 400 msg
      | none =>
          match response.user with
          | none =>
              errResp 403 "Email not confirmed. Please check your email and verify your account."
          | some user =>
              if isFalsy user.email_confirmed_at then
                errResp 403 "Email not confirmed. Please check your email and verify your account."
              else
                { status := 200, message := some "Login successful",
                  token := some response.access_token }

/-- The identity `token_required` resolves a bearer token to and passes to
the wrapped handler (the handlers read `user["id"]`). -/
structure UserIdentity where
  id : String
deriving Repr, DecidableEq

/-- Modelled from the spec: the bearer-token extraction step of the
`token_required` decorator (`middlewares/auth.py`, imported by
`routes.py` but absent from the repository sources). Per spec section 4.3
it extracts the bearer token from the request's authorization header. -/
def bearerOf (authHeader : Option String) : Option String :=
  match authHeader with
  | none => none
  | some h =>
      if h.toList.take 7 = "Bearer ".toList then
        some (String.mk (h.toList.drop 7))
      else none

/-- Modelled from the spec: the `token_required` decorator
(`middlewares/auth.py`, absent from the repository sources). Per spec
section 4.3: extracts the bearer token from the authorization header;
fails with an unauthorized error (401) if the token is missing or is
rejected by the identity provider (`resolve` returns `none` for a
malformed or revoked token); otherwise resolves the token to a user
identity and passes that identity to the wrapped handler. -/
def token_required (authHeader : Option String)
    (resolve : String → Option UserIdentity)
    (handler : UserIdentity → HttpResponse) : HttpResponse :=
  match bearerOf authHeader with
  | none => errResp 401 "Unauthorized"
  | some tok =>
      match resolve tok with
      | none => errResp 401 "Unauthorized"
      | some user => handler user

/-- A row of the `articles` table; the handlers only inspect `id` and
`category`. -/
structure Article where
  id : String
  category : Option String := none
deriving Repr, DecidableEq

/-- The provider-held tables the progress handlers read and write,
modelled as explicit lists of rows (`.table(...).select/insert` become
list filtering and appending). -/
structure Db where
  articles : List Article := []
  userprogress : List ProgressRow := []
  users : List UserRow := []
deriving Repr, DecidableEq

/-- The `mark_question_as_read` handler (`routes.py`, lines 183-192): it
builds `{"user_id": user["id"], "question_id": question_id}`, inserts it
into `userprogress` with no existence check, and returns the inserted
rows. -/
def mark_question_as_read (user : UserIdentity) (question_id : String)
    (db : Db) : HttpResponse × Db :=
  let progress_entry : ProgressRow :=
    { user_id := user.id, question_id := some question_id }
  ({ status := 200, rows := [progress_entry] },
   { db with userprogress := db.userprogress ++ [progress_entry] })

/-- The `mark_article_as_read` handler (`routes.py`, lines 374-404):
404 when the article does not exist, an "already marked" 200 (with no
insert) when a `userprogress` row for this user and article exists, and
otherwise inserts `(user_id, article_id, completed_at := now)` where `now`
is the `datetime.utcnow().isoformat()` timestamp, passed as a parameter. -/
def mark_article_as_read (user : UserIdentity) (article_id : String)
    (now : String) (db : Db) : HttpResponse × Db :=
  if (db.articles.filter (fun a => a.id == article_id)).isEmpty then
    (errResp 404 "Article not found", db)
  else
    let existing_progress := db.userprogress.filter
      (fun p => p.user_id == user.id && p.article_id == some article_id)
    if !existing_progress.isEmpty then
      ({ status := 200, message := some "Article already marked as read" }, db)
    else
      let progress_entry : ProgressRow :=
        { user_id := user.id, article_id := some article_id,
          completed_at := some now }
      ({ status := 200, message := some "Article marked as read",
         rows := [progress_entry] },
       { db with userprogress := db.userprogress ++ [progress_entry] })

/-- The body of the `get_user_progress` response (`routes.py`,
lines 240-248). The percentage is computed in exact rational arithmetic in
place of Python float division; the guard `if total_articles > 0 else 0`
is the source's. -/
structure ProgressReport where
  total_articles : Nat
  completed_articles : Nat
  progress_percentage : ℚ
  user_role : String
  progress_data : List ProgressRow
deriving Repr, DecidableEq

/-- The `get_user_progress` handler (`routes.py`, lines 218-248):
`progress_data` is every `userprogress` row of the user,
`total_articles` the size of the `articles` table,
`completed_articles` the size of `progress_data`, and
`progress_percentage` is `completed / total * 100` guarded by
`total_articles > 0`, else `0`. The role is read from the first matching
`users` row, defaulting to `"user"`. -/
def get_user_progress (user : UserIdentity) (db : Db) : ProgressReport :=
  let progress_data := db.userprogress.filter (fun p => p.user_id == user.id)
  let articles := db.articles
  let total_articles := articles.length
  let completed_articles := progress_data.length
  let progress_percentage : ℚ :=
    if total_articles > 0 then
      (completed_articles : ℚ) / (total_articles : ℚ) * 100
    else 0
  let user_rows := db.users.filter (fun u => u.id == user.id)
  let user_role := match user_rows with
    | [] => "user"
    | u :: _ => u.role
  { total_articles := total_articles, completed_articles := completed_articles,
    progress_percentage := progress_percentage, user_role := user_role,
    progress_data := progress_data }

/-- `extract_code_example` from `routes.py` (lines 355-371): splits the
response on triple backticks, takes the first fenced block, strips it, and
drops a leading `python` language tag. The `for` loop returns on its first
iteration, so only `parts[1]` is ever inspected. -/
def extract_code_example (response : String) : Option String :=
  let parts := response.splitOn "```"
  match parts with
  | _ :: second :: _ =>
      let code := second.trim
      if code.startsWith "python" then some ((code.drop 6).trim) else some code
  | _ => none

/-- Oracle for the external calls `get_ai_assistance` makes: the chat
completion (`.ok` carries the returned message content) and the
`ai_interactions` insert. -/
structure AiEnv where
  chat_completion : Except String String
  insert_interaction : Except String Unit := .ok ()

/-- The `get_ai_assistance` handler (`routes.py`, lines 301-353): 400 when
the question is missing or empty; on success returns the AI response and,
when it contains a triple-backtick fence, the extracted code example. Any
exception raised by the AI provider or the interaction insert is caught
and surfaced as `({"error": "Failed to get AI response"}, 500)` — the
original message is discarded. -/
def get_ai_assistance (user : UserIdentity) (question : Option String)
    (env : AiEnv) : HttpResponse :=
  if isFalsy question then
    errResp 400 "Question is required"
  else
    match env.chat_completion with
    | .error _ => errResp 500 "Failed to get AI response"
    | .ok ai_response =>
        match env.insert_interaction with
        | .error _ => errResp 500 "Failed to get AI response"
        | .ok _ =>
            { status := 200, response := some ai_response,
              code_example :=
                if (ai_response.splitOn "```").length > 1 then
                  extract_code_example ai_response
                else none }

/-! ## Theorems -/

/-- The Python guard `admin_code and admin_code == ADMIN_SECRET` holds
exactly when an admin code was supplied, is non-empty, and equals the
secret. -/
theorem truthyEq_iff (o : Option String) (s : String) :
    truthyEq o s = true ↔ (o = some s ∧ s ≠ "") := by
  cases o with
  | none => simp [truthyEq]
  | some c =>
      simp only [truthyEq, Bool.and_eq_true, Bool.not_eq_true', beq_eq_false_iff_ne,
        ne_eq, beq_iff_eq, Option.some.injEq]
      constructor
      · rintro ⟨hne, rfl⟩; exact ⟨rfl, hne⟩
      · rintro ⟨rfl, hne⟩; exact ⟨hne, rfl⟩

/-- C1 (amended): for a signup request that passes validation and reaches
account creation, the created account's role is `admin` iff the request
supplies a non-empty admin code equal to `ADMIN_SECRET`; otherwise
(including a supplied empty admin code, even when the secret is empty) the
role is `user`. -/
theorem signup_role_admin_iff (data : SignupData) (ADMIN_SECRET : String)
    (env : SignupEnv) (uid : String)
    (h1 : isFalsy data.email = false) (h2 : isFalsy data.password = false)
    (h3 : isFalsy data.username = false) (h4 : isFalsy data.phone = false)
    (h5 : is_valid_email (data.email.getD "") = true)
    (h6 : ¬ (data.password.getD "").length < 6)
    (henv1 : env.get_user_by_email = .ok none)
    (henv2 : env.sign_up = .ok { user := some uid })
    (henv3 : env.insert_users = .ok ()) :
    ((signup data ADMIN_SECRET env).1.role = some "admin" ↔
      (data.admin_code = some ADMIN_SECRET ∧ ADMIN_SECRET ≠ "")) ∧
    ((signup data ADMIN_SECRET env).1.role = some "admin" ∨
      (signup data ADMIN_SECRET env).1.role = some "user") := by
  have hred : (signup data ADMIN_SECRET env).1.role =
      some (if truthyEq data.admin_code ADMIN_SECRET then "admin" else "user") := by
    simp [signup, h1, h2, h3, h4, h5, h6, henv1, henv2, henv3]
  rw [hred]
  by_cases hc : truthyEq data.admin_code ADMIN_SECRET = true
  · rw [if_pos hc]
    exact ⟨⟨fun _ => (truthyEq_iff _ _).mp hc, fun _ => rfl⟩, .inl rfl⟩
  · rw [if_neg hc]
    refine ⟨⟨fun h => absurd h (by simp), fun h => absurd ((truthyEq_iff _ _).mpr h) hc⟩,
      .inr rfl⟩

/-- C1 counterexample: a signup request whose admin code (the empty
string) equals the configured secret (also the empty string) exactly, yet
the created account's role is `user`, not `admin` — refuting "role is
`admin` iff the admin code equals the secret exactly". -/
theorem signup_role_claim_counterexample :
    (signup { email := some "a@b.co", password := some "secret1",
              username := some "u", phone := some "1", admin_code := some "" }
        "" { get_user_by_email := .error "user not found",
             sign_up := .ok { user := some "uid-1" } }).1.role ≠ some "admin" ∧
    (signup { email := some "a@b.co", password := some "secret1",
              username := some "u", phone := some "1", admin_code := some "" }
        "" { get_user_by_email := .error "user not found",
             sign_up := .ok { user := some "uid-1" } }).1.role = some "user" := by
  decide

/-- Witness for the C1 theorem at a concrete request: a non-empty admin
code equal to the secret yields role `admin`. -/
theorem signup_role_admin_iff_witness :
    (signup { email := some "a@b.co", password := some "secret1",
              username := some "u", phone := some "1", admin_code := some "topsecret" }
        "topsecret" { get_user_by_email := .ok none,
                      sign_up := .ok { user := some "uid-1" } }).1.role = some "admin" :=
  ((signup_role_admin_iff _ "topsecret" _ "uid-1" (by decide) (by decide) (by decide)
      (by decide) (by decide) (by decide) rfl rfl rfl).1).mpr ⟨rfl, by decide⟩

/-- C2: if the provider accepts the credentials (no raised exception, no
error attribute) but the account's email is unconfirmed, login responds
403 with no token; and a token is returned only when the provider produced
a user whose email is confirmed. -/
theorem login_unverified_forbidden :
    (∀ (env : LoginEnv) (resp : SignInResponse) (u : AuthUser),
      env.sign_in_with_password = .ok resp → resp.error = none →
      resp.user = some u → isFalsy u.email_confirmed_at = true →
      (login env).status = 403 ∧ (login env).token = none) ∧
    (∀ (env : LoginEnv) (t : String), (login env).token = some t →
      ∃ resp u, env.sign_in_with_password = .ok resp ∧ resp.user = some u ∧
        isFalsy u.email_confirmed_at = false) := by
  constructor
  · intro env resp u hsign herr huser hconf
    simp [login, hsign, herr, huser, hconf, errResp]
  · intro env t ht
    rcases henv : env.sign_in_with_password with e | resp
    · rw [login, henv] at ht; simp [errResp] at ht
    · obtain ⟨err, usr, tok⟩ := resp
      rcases err with _ | msg
      · rcases usr with _ | u
        · rw [login, henv] at ht; simp [errResp] at ht
        · by_cases hc : isFalsy u.email_confirmed_at = true
          · rw [login, henv] at ht; simp [hc, errResp] at ht
          · exact ⟨{ error := none, user := some u, access_token := tok }, u, rfl, rfl,
              by simpa using hc⟩
      · rw [login, henv] at ht; simp [errResp] at ht

/-- Witness for the C2 theorem at a concrete environment: correct
credentials but an unconfirmed email give a 403 with no token. -/
theorem login_unverified_forbidden_witness :
    (login ⟨Except.ok { user := some (AuthUser.mk "u1" "a@b.co" none) }⟩).status = 403 ∧
    (login ⟨Except.ok { user := some (AuthUser.mk "u1" "a@b.co" none) }⟩).token = none :=
  login_unverified_forbidden.1 _ _ _ rfl rfl rfl rfl

/-- C3: when the provider already holds an account for the email, a
validation-passing signup (a) resends the verification email and returns
the "resent" status, performing no account-creating effect, when that
account is unverified and the resend succeeds, and (b) fails with the
conflict error (400, "User already registered and verified"), again
creating nothing, when the account is verified. -/
theorem signup_existing_email (data : SignupData) (ADMIN_SECRET : String)
    (env : SignupEnv) (u : AuthUser)
    (h1 : isFalsy data.email = false) (h2 : isFalsy data.password = false)
    (h3 : isFalsy data.username = false) (h4 : isFalsy data.phone = false)
    (h5 : is_valid_email (data.email.getD "") = true)
    (h6 : ¬ (data.password.getD "").length < 6)
    (hex : env.get_user_by_email = .ok (some u)) :
    (isFalsy u.email_confirmed_at = true → env.resend = .ok () →
      signup data ADMIN_SECRET env =
        ({ status := 200,
           message := some "User exists but email not verified. Verification email resent.",
           resp_status := some "resent" },
         [Effect.resendVerification "signup" (data.email.getD "")])) ∧
    (isFalsy u.email_confirmed_at = false →
      signup data ADMIN_SECRET env =
        (errResp 400 "User already registered and verified", [])) := by
  constructor
  · intro hconf hres
    simp [signup, h1, h2, h3, h4, h5, h6, hex, hconf, hres]
  · intro hconf
    simp [signup, h1, h2, h3, h4, h5, h6, hex, hconf, errResp]

/-- Witness for the C3 theorem at a concrete request and provider state:
re-signup of an existing unverified email yields the "resent" response and
only a resend effect. -/
theorem signup_existing_email_witness :
    signup { email := some "a@b.co", password := some "secret1",
             username := some "u", phone := some "1" }
        "topsecret" { get_user_by_email := Except.ok (some (AuthUser.mk "u1" "a@b.co" none)) } =
      ({ status := 200,
         message := some "User exists but email not verified. Verification email resent.",
         resp_status := some "resent" },
       [Effect.resendVerification "signup" "a@b.co"]) :=
  (signup_existing_email _ "topsecret" _ (AuthUser.mk "u1" "a@b.co" none) (by decide)
      (by decide) (by decide) (by decide) (by decide) (by decide) rfl).1 rfl rfl

/-- C4: with all required fields present and a well-formed email, a signup
whose password is shorter than 6 characters is rejected with the 400
validation error and performs no external effect, while a password of 6 or
more characters never produces that validation response. -/
theorem signup_password_boundary (data : SignupData) (ADMIN_SECRET : String)
    (env : SignupEnv)
    (h1 : isFalsy data.email = false) (h2 : isFalsy data.password = false)
    (h3 : isFalsy data.username = false) (h4 : isFalsy data.phone = false)
    (h5 : is_valid_email (data.email.getD "") = true) :
    ((data.password.getD "").length < 6 →
      signup data ADMIN_SECRET env =
        (errResp 400 "Password must be at least 6 characters long", [])) ∧
    (6 ≤ (data.password.getD "").length →
      (signup data ADMIN_SECRET env).1 ≠
        errResp 400 "Password must be at least 6 characters long") := by
  constructor
  · intro hlt
    simp [signup, h1, h2, h3, h4, h5, hlt, errResp]
  · intro hge heq
    have hlt : ¬ (data.password.getD "").length < 6 := not_lt.mpr hge
    simp only [signup] at heq
    rw [if_neg (by simp [h1, h2, h3, h4]), if_neg (by simp [h5]), if_neg hlt] at heq
    rcases hg : env.get_user_by_email with e | ou
    · rcases hs : env.sign_up with e2 | ⟨ou2⟩
      · simp [hg, hs, errResp] at heq
      · rcases ou2 with _ | uid
        · simp [hg, hs, errResp] at heq
        · rcases hi : env.insert_users with e3 | _ <;>
            simp [hg, hs, hi, errResp] at heq
    · rcases ou with _ | u
      · rcases hs : env.sign_up with e2 | ⟨ou2⟩
        · simp [hg, hs, errResp] at heq
        · rcases ou2 with _ | uid
          · simp [hg, hs, errResp] at heq
          · rcases hi : env.insert_users with e3 | _ <;>
              simp [hg, hs, hi, errResp] at heq
      · by_cases hc : isFalsy u.email_confirmed_at = true
        · rcases hr : env.resend with e4 | _
          · rcases hs : env.sign_up with e2 | ⟨ou2⟩
            · simp [hg, hc, hr, hs, errResp] at heq
            · rcases ou2 with _ | uid
              · simp [hg, hc, hr, hs, errResp] at heq
              · rcases hi : env.insert_users with e3 | _ <;>
                  simp [hg, hc, hr, hs, hi, errResp] at heq
          · simp [hg, hc, hr, errResp] at heq
        · simp [hg, hc, errResp] at heq

/-- Witness for the C4 theorem at a concrete request: a 5-character
password is rejected with the validation error, and the same request with
a 6-character password is not. -/
theorem signup_password_boundary_witness :
    signup { email := some "a@b.co", password := some "abcde",
             username := some "u", phone := some "1" }
        "topsecret" { get_user_by_email := Except.error "user not found" } =
      (errResp 400 "Password must be at least 6 characters long", []) ∧
    (signup { email := some "a@b.co", password := some "abcdef",
              username := some "u", phone := some "1" }
        "topsecret" { get_user_by_email := Except.error "user not found" }).1 ≠
      errResp 400 "Password must be at least 6 characters long" :=
  ⟨(signup_password_boundary _ "topsecret" _ (by decide) (by decide) (by decide)
      (by decide) (by decide)).1 (by decide),
   (signup_password_boundary _ "topsecret" _ (by decide) (by decide) (by decide)
      (by decide) (by decide)).2 (by decide)⟩

/-- C5: for any protected route, a missing bearer token or one the
identity provider rejects yields the 401 unauthorized response without the
wrapped handler ever running, and an accepted token passes the resolved
user identity to the handler. Modelled from the spec (section 4.3), as
`middlewares/auth.py` is absent from the repository sources. -/
theorem token_required_guard :
    ∀ (auth : Option String) (resolve : String → Option UserIdentity)
      (handler : UserIdentity → HttpResponse),
      (bearerOf auth = none →
        token_required auth resolve handler = errResp 401 "Unauthorized") ∧
      (∀ t, bearerOf auth = some t → resolve t = none →
        token_required auth resolve handler = errResp 401 "Unauthorized") ∧
      (∀ t u, bearerOf auth = some t → resolve t = some u →
        token_required auth resolve handler = handler u) := by
  intro auth resolve handler
  refine ⟨fun h => ?_, fun t h1 h2 => ?_, fun t u h1 h2 => ?_⟩ <;>
    simp [token_required, *]

/-- Witness for the C5 theorem at concrete headers: a missing
authorization header is rejected with 401, and a valid bearer token
reaches the handler with the resolved identity. -/
theorem token_required_guard_witness :
    token_required none (fun _ => some (UserIdentity.mk "u1"))
        (fun u => { status := 200, message := some u.id }) =
      errResp 401 "Unauthorized" ∧
    token_required (some "Bearer tok1") (fun _ => some (UserIdentity.mk "u1"))
        (fun u => { status := 200, message := some u.id }) =
      { status := 200, message := some "u1" } :=
  ⟨(token_required_guard none _ _).1 rfl,
   (token_required_guard (some "Bearer tok1") _ _).2.2 "tok1" (UserIdentity.mk "u1")
     (by decide) rfl⟩

/-- C6: marking an existing article as read a second time for the same
user leaves the whole database (in particular the set of progress
records) unchanged, returns the "already marked" message, and inserts
nothing — so there is never a second progress record for the same
(user, article) pair. -/
theorem mark_article_no_duplicate (db : Db) (user : UserIdentity)
    (article_id now1 now2 : String)
    (hart : (db.articles.filter (fun a => a.id == article_id)).isEmpty = false) :
    (mark_article_as_read user article_id now2
        (mark_article_as_read user article_id now1 db).2).2 =
      (mark_article_as_read user article_id now1 db).2 ∧
    (mark_article_as_read user article_id now2
        (mark_article_as_read user article_id now1 db).2).1.message =
      some "Article already marked as read" ∧
    (mark_article_as_read user article_id now2
        (mark_article_as_read user article_id now1 db).2).1.rows = [] := by
  by_cases hex : (db.userprogress.filter
      (fun p => p.user_id == user.id && p.article_id == some article_id)).isEmpty
  · have h1 : (mark_article_as_read user article_id now1 db).2 =
        { db with userprogress := db.userprogress ++
            [{ user_id := user.id, article_id := some article_id,
               completed_at := some now1 }] } := by
      simp [mark_article_as_read, hart, hex]
    rw [h1]
    simp [mark_article_as_read, hart, List.filter_append]
  · have h1 : (mark_article_as_read user article_id now1 db).2 = db := by
      simp [mark_article_as_read, hart, hex]
    rw [h1]
    simp [mark_article_as_read, hart, hex]

/-- Witness for the C6 theorem at a concrete database: marking article
"a1" read twice leaves the state of the first call untouched and answers
"already marked". -/
theorem mark_article_no_duplicate_witness :
    (mark_article_as_read (UserIdentity.mk "u1") "a1" "t2"
        (mark_article_as_read (UserIdentity.mk "u1") "a1" "t1"
          { articles := [Article.mk "a1" none] }).2).2 =
      (mark_article_as_read (UserIdentity.mk "u1") "a1" "t1"
        { articles := [Article.mk "a1" none] }).2 ∧
    (mark_article_as_read (UserIdentity.mk "u1") "a1" "t2"
        (mark_article_as_read (UserIdentity.mk "u1") "a1" "t1"
          { articles := [Article.mk "a1" none] }).2).1.message =
      some "Article already marked as read" ∧
    (mark_article_as_read (UserIdentity.mk "u1") "a1" "t2"
        (mark_article_as_read (UserIdentity.mk "u1") "a1" "t1"
          { articles := [Article.mk "a1" none] }).2).1.rows = [] :=
  mark_article_no_duplicate { articles := [Article.mk "a1" none] }
    (UserIdentity.mk "u1") "a1" "t1" "t2" (by decide)

/-- C7 (amended): when the identity provider rejects the credentials,
login fails with an error response carrying the provider's message and no
token — as HTTP 500 when the provider raises, and as HTTP 400 when it
returns an error attribute — not as a 401 unauthorized response. -/
theorem login_provider_rejection (env : LoginEnv) (msg : String)
    (resp : SignInResponse) :
    (env.sign_in_with_password = .error msg → login env = errResp 500 msg) ∧
    (env.sign_in_with_password = .ok resp → resp.error = some msg →
      login env = errResp 400 msg) := by
  constructor
  · intro h; simp [login, h]
  · intro h1 h2; simp [login, h1, h2]

/-- C7 counterexample: a login whose credentials the provider rejects (it
raises "Invalid login credentials") is answered with HTTP 500, not with an
unauthorized-class 401 response. -/
theorem login_unauthorized_claim_counterexample :
    (login ⟨Except.error "Invalid login credentials"⟩).status = 500 ∧
    (login ⟨Except.error "Invalid login credentials"⟩).status ≠ 401 := by
  decide

/-- Witness for the C7 theorem at a concrete environment. -/
theorem login_provider_rejection_witness :
    login ⟨Except.error "Invalid login credentials"⟩ =
      errResp 500 "Invalid login credentials" :=
  (login_provider_rejection ⟨Except.error "Invalid login credentials"⟩
    "Invalid login credentials" {}).1 rfl

/-- C8 (amended): provider failures are caught at the handler boundary
and surfaced as HTTP 500 with no retry; the signup and login handlers
expose the original error message in the body, while the AI-assist
handler replaces it with the fixed message "Failed to get AI response". -/
theorem handler_boundary_errors :
    (∀ (data : SignupData) (ADMIN_SECRET : String) (env : SignupEnv) (e : String),
      isFalsy data.email = false → isFalsy data.password = false →
      isFalsy data.username = false → isFalsy data.phone = false →
      is_valid_email (data.email.getD "") = true →
      ¬ (data.password.getD "").length < 6 →
      env.get_user_by_email = .ok none → env.sign_up = .error e →
      (signup data ADMIN_SECRET env).1 = errResp 500 e) ∧
    (∀ (env : LoginEnv) (e : String),
      env.sign_in_with_password = .error e → login env = errResp 500 e) ∧
    (∀ (user : UserIdentity) (q : Option String) (env : AiEnv) (e : String),
      isFalsy q = false → env.chat_completion = .error e →
      get_ai_assistance user q env = errResp 500 "Failed to get AI response") := by
  refine ⟨?_, ?_, ?_⟩
  · intro data ADMIN_SECRET env e h1 h2 h3 h4 h5 h6 hg hs
    simp [signup, h1, h2, h3, h4, h5, h6, hg, hs]
  · intro env e h; simp [login, h]
  · intro user q env e hq hc; simp [get_ai_assistance, hq, hc]

/-- C8 counterexample: an AI-provider failure with message
"connection reset" is surfaced by the AI-assist handler as a 500 whose
body carries the fixed message "Failed to get AI response" — the original
error message is not exposed to the caller. -/
theorem handler_error_message_counterexample :
    get_ai_assistance (UserIdentity.mk "u1") (some "What is a heap?")
        { chat_completion := Except.error "connection reset" } =
      errResp 500 "Failed to get AI response" ∧
    "Failed to get AI response" ≠ "connection reset" := by
  refine ⟨by decide, by decide⟩

/-- Witness for the C8 theorem at concrete environments: a raising
sign-in call makes login answer 500 with the original message. -/
theorem handler_boundary_errors_witness :
    login ⟨Except.error "service unavailable"⟩ = errResp 500 "service unavailable" :=
  handler_boundary_errors.2.1 ⟨Except.error "service unavailable"⟩
    "service unavailable" rfl

/-- C9: the reported progress percentage is
`completed_articles / total_articles * 100` exactly when the articles
table is non-empty, and the guarded branch yields 0 on an empty articles
table, so the division is only taken with a positive divisor. -/
theorem progress_percentage_guarded (user : UserIdentity) (db : Db) :
    ((get_user_progress user db).progress_percentage =
      if 0 < db.articles.length then
        ((get_user_progress user db).completed_articles : ℚ) /
          (db.articles.length : ℚ) * 100
      else 0) ∧
    (db.articles = [] → (get_user_progress user db).progress_percentage = 0) := by
  constructor
  · simp [get_user_progress]
  · intro h; simp [get_user_progress, h]

/-- Witness for the C9 theorem at a concrete database with an empty
articles table: the reported percentage is 0 (no division occurs). -/
theorem progress_percentage_guarded_witness :
    (get_user_progress (UserIdentity.mk "u1") {}).progress_percentage = 0 :=
  (progress_percentage_guarded (UserIdentity.mk "u1") {}).2 rfl

/-- C10: the question mark-read handler appends a (user id, question id)
progress row unconditionally — also when such a row is already present —
so calling it twice attempts (and in this model performs) two inserts of
the same pair. -/
theorem mark_question_inserts_unconditionally (user : UserIdentity)
    (question_id : String) (db : Db) :
    (mark_question_as_read user question_id db).2.userprogress =
      db.userprogress ++
        [{ user_id := user.id, question_id := some question_id }] ∧
    (mark_question_as_read user question_id
        (mark_question_as_read user question_id db).2).2.userprogress =
      db.userprogress ++
        [{ user_id := user.id, question_id := some question_id },
         { user_id := user.id, question_id := some question_id }] := by
  simp [mark_question_as_read]

end Leetcode2
